import Mathlib

/-!
# Verification of the vlaude session-bridging daemon core

Shallow embedding of the daemon core (watcher, service dispatcher, socket
client, service registry, shared-db writer-election adapter) translated from
the Rust sources, together with theorems settling the behavioural claims
about it.

Conventions:
* machine bytes are modelled as Nat (a file is a List Nat);
* JSON values (serde_json::Value) are modelled by the inductive JVal;
* the external JSON parser is passed as a parameter of type
  List Nat → Option JVal;
* filesystem state during one poll is a fixed map String → FileView;
* async handlers are modelled as pure functions returning the frames they
  emit; a handler that fails with an error before reaching its emit site
  returns Except.error and no frames.
-/

namespace Vlaude

/-- Model of serde_json::Value. -/
inductive JVal where
  | null
  | bool (b : Bool)
  | num (n : Int)
  | str (s : String)
  | arr (items : List JVal)
  | obj (fields : List (String × JVal))

/-- serde_json::Value::get on an object: first field with the given key. -/
def JVal.get : JVal → String → Option JVal
  | .obj fields, key => (fields.find? (fun p => p.1 == key)).map (·.2)
  | _, _ => none

/-- Value::as_str. -/
def JVal.asStr : JVal → Option String
  | .str s => some s
  | _ => none

/-- Value::as_bool. -/
def JVal.asBool : JVal → Option Bool
  | .bool b => some b
  | _ => none

/-- Value::as_u64 (numbers are modelled as Int; non-negative ones convert). -/
def JVal.asU64 : JVal → Option Nat
  | .num n => if 0 ≤ n then some n.toNat else none
  | _ => none

/-- One outbound wire frame: event name plus the requestId it carries
(none when the payload has no requestId field). -/
structure Frame where
  event : String
  requestId : Option String
deriving Repr, DecidableEq

/-! ## Tailer (daemon-logic/src/watcher.rs) -/

/-- watcher.rs SessionState: per-session path, project path and byte offset. -/
structure SessionState where
  path : String
  projectPath : String
  lastPosition : Nat
deriving Repr, DecidableEq

/-- watcher.rs SessionWatchEvent. -/
inductive SessionWatchEvent where
  | newMessage (sessionId projectPath : String) (message : JVal)
  | sessionCreated (sessionId projectPath : String)
  | sessionDeleted (sessionId projectPath : String)
  | error (sessionId : String) (err : String)

/-- The session id carried by a watch event. -/
def SessionWatchEvent.sessionIdOf : SessionWatchEvent → String
  | .newMessage sid _ _ => sid
  | .sessionCreated sid _ => sid
  | .sessionDeleted sid _ => sid
  | .error sid _ => sid

/-- Whether a watch event is the SessionCreated constructor. -/
def SessionWatchEvent.isCreated : SessionWatchEvent → Bool
  | .sessionCreated _ _ => true
  | _ => false

/-- State of one path of the filesystem as observed during a single poll:
absent, readable with the given bytes, or present but failing on open/read. -/
inductive FileView where
  | missing
  | file (bytes : List Nat)
  | ioError (msg : String)

/-- BufRead::lines strips a trailing carriage return after removing the
newline. -/
def stripCR (l : List Nat) : List Nat :=
  if l.getLast? = some 13 then l.dropLast else l

/-- Accumulator loop for BufRead::lines over raw bytes: yields the content of
each newline-terminated line (newline removed, trailing CR stripped) and a
final non-terminated chunk as-is. -/
def rustLinesAux : List Nat → List Nat → List (List Nat)
  | [], acc => if acc.isEmpty then [] else [acc.reverse]
  | b :: rest, acc =>
      if b = 10 then stripCR acc.reverse :: rustLinesAux rest []
      else rustLinesAux rest (b :: acc)

/-- BufRead::lines over the bytes read from the current offset. -/
def rustLines (bs : List Nat) : List (List Nat) := rustLinesAux bs []

/-- Rust char::is_whitespace restricted to ASCII bytes (str::trim). -/
def isWhitespaceByte (b : Nat) : Bool :=
  b = 32 || b = 9 || b = 10 || b = 13 || b = 11 || b = 12

/-- content.trim().is_empty() for a line of bytes. -/
def isBlankLine (l : List Nat) : Bool := l.all isWhitespaceByte

/-- SessionWatcher::read_incremental_static: if the file is not longer than
the stored offset, return no messages and the offset unchanged; otherwise
read lines from the offset, advancing the returned position by
content.len() + 1 per line (the source adds the +1 unconditionally, also for
a final line that has no trailing newline), collecting each non-blank line
that parses as JSON. -/
def read_incremental_static (parse : List Nat → Option JVal)
    (bytes : List Nat) (lastPosition : Nat) : List JVal × Nat :=
  if bytes.length ≤ lastPosition then ([], lastPosition)
  else
    (rustLines (bytes.drop lastPosition)).foldl
      (fun acc content =>
        let newPos := acc.2 + content.length + 1
        if isBlankLine content then (acc.1, newPos)
        else
          match parse content with
          | some j => (acc.1 ++ [j], newPos)
          | none => (acc.1, newPos))
      ([], lastPosition)

/-- The watched-session map (HashMap String SessionState), as an association
list; keys are unique in any state produced by the operations below. -/
abbrev WatcherSessions := List (String × SessionState)

/-- Advance the stored offset of one session in the map. -/
def updatePosition (m : WatcherSessions) (sid : String) (pos : Nat) :
    WatcherSessions :=
  m.map (fun p => if p.1 = sid then (p.1, { p.2 with lastPosition := pos }) else p)

/-- One iteration of the snapshot loop in SessionWatcher::check_updates:
accumulates (events so far, session map, ids to delete). -/
def checkStep (parse : List Nat → Option JVal) (fs : String → FileView)
    (acc : List SessionWatchEvent × WatcherSessions × List String)
    (snap : String × SessionState) :
    List SessionWatchEvent × WatcherSessions × List String :=
  let (events, m, deleted) := acc
  let (sid, st) := snap
  match fs st.path with
  | .missing =>
      (events ++ [.sessionDeleted sid st.projectPath], m, deleted ++ [sid])
  | .ioError e =>
      (events ++ [.error sid e], m, deleted)
  | .file bytes =>
      let r := read_incremental_static parse bytes st.lastPosition
      let m' := if st.lastPosition < r.2 then updatePosition m sid r.2 else m
      (events ++ r.1.map (fun msg => .newMessage sid st.projectPath msg), m', deleted)

/-- SessionWatcher::check_updates: snapshot the map, process each entry,
then remove the sessions whose file disappeared.  Returns the events and the
new map. -/
def check_updates (parse : List Nat → Option JVal) (fs : String → FileView)
    (sessions : WatcherSessions) :
    List SessionWatchEvent × WatcherSessions :=
  let res := sessions.foldl (checkStep parse fs) ([], sessions, [])
  (res.1, res.2.1.filter (fun p => ! res.2.2.contains p.1))

/-- HashMap::insert on the watched-session map. -/
def insertSession (m : WatcherSessions) (sid : String) (st : SessionState) :
    WatcherSessions :=
  if m.any (fun p => p.1 == sid) then
    m.map (fun p => if p.1 == sid then (sid, st) else p)
  else m ++ [(sid, st)]

/-- SessionWatcher::watch_session: record the current byte length of the file
as the starting offset (0 for a missing file); a metadata error fails. -/
def watch_session (fs : String → FileView) (sessions : WatcherSessions)
    (sessionId path projectPath : String) : Except String WatcherSessions :=
  match fs path with
  | .missing => .ok (insertSession sessions sessionId ⟨path, projectPath, 0⟩)
  | .ioError e => .error e
  | .file bytes => .ok (insertSession sessions sessionId ⟨path, projectPath, bytes.length⟩)

/-! ## Substring utilities for the path-component validator -/

/-- Whether the first list is an initial segment of the second. -/
def isInitialSeg : List Char → List Char → Bool
  | [], _ => true
  | _ :: _, [] => false
  | a :: as_, b :: bs => a = b && isInitialSeg as_ bs

/-- Rust str::contains with a literal pattern (substring search). -/
def hasSubstr (hay needle : List Char) : Bool :=
  match hay with
  | [] => needle.isEmpty
  | _ :: t => isInitialSeg needle hay || hasSubstr t needle

/-! ## Dispatcher and request handlers (daemon-logic/src/service.rs) -/

/-- service.rs validate_path_component: reject empty strings, strings that
contain "..", start with a slash, or contain a NUL byte.  Rust's
starts_with is expressed on the character list so that the definition
evaluates inside the kernel. -/
def validate_path_component (s name : String) : Except String Unit :=
  if s.isEmpty then .error (name ++ " cannot be empty")
  else if hasSubstr s.toList ['.', '.'] || isInitialSeg ['/'] s.toList
      || s.toList.contains (Char.ofNat 0) then
    .error ("Invalid " ++ name ++ ": contains forbidden characters")
  else .ok ()

/-- Extract the optional requestId a request payload carries. -/
def extractRequestId (data : JVal) : Option String :=
  (data.get "requestId").bind JVal.asStr

/-- Result of TranscriptStore read_messages_raw. -/
structure ReadRawResult where
  messages : List JVal
  total : Nat
  hasMore : Bool

/-- DaemonService::handle_request_project_data; the ClaudeReader call is an
external collaborator, passed in as its outcome. -/
def handle_request_project_data (listProjects : Except String (List JVal))
    (data : JVal) : Except String (List Frame) := do
  let _limit := (data.get "limit").bind JVal.asU64
  let requestId := extractRequestId data
  let _projects ← listProjects
  pure [⟨"daemon:projectData", requestId⟩]

/-- DaemonService::handle_request_session_metadata. -/
def handle_request_session_metadata (listSessions : Except String (List JVal))
    (data : JVal) : Except String (List Frame) := do
  let _projectPath := (data.get "projectPath").bind JVal.asStr
  let requestId := extractRequestId data
  let _sessions ← listSessions
  pure [⟨"daemon:sessionMetadata", requestId⟩]

/-- DaemonService::handle_request_session_messages: extract the fields,
validate the session id, read the transcript window (collaborator outcome
passed in), and only then emit the single sessionMessages frame. -/
def handle_request_session_messages (readRaw : Except String ReadRawResult)
    (data : JVal) : Except String (List Frame) := do
  let sessionId := ((data.get "sessionId").bind JVal.asStr).getD ""
  let _projectPath := ((data.get "projectPath").bind JVal.asStr).getD ""
  let _ ← validate_path_component sessionId "session_id"
  let _limit := ((data.get "limit").bind JVal.asU64).getD 50
  let _offset := ((data.get "offset").bind JVal.asU64).getD 0
  let requestId := extractRequestId data
  let _result ← readRaw
  pure [⟨"daemon:sessionMessages", requestId⟩]

/-- DaemonService::handle_create_session: always replies with one
failure-shaped sessionCreatedResult frame echoing the requestId. -/
def handle_create_session (data : JVal) : Except String (List Frame) :=
  let requestId := ((data.get "requestId").bind JVal.asStr).getD ""
  .ok [⟨"daemon:sessionCreatedResult", some requestId⟩]

/-- DaemonService::handle_check_loading: always replies with one
checkLoadingResult frame (loading = false) echoing the requestId. -/
def handle_check_loading (data : JVal) : Except String (List Frame) :=
  let requestId := ((data.get "requestId").bind JVal.asStr).getD ""
  .ok [⟨"daemon:checkLoadingResult", some requestId⟩]

/-- DaemonService::handle_send_message: always replies with one
failure-shaped sendMessageResult frame echoing the requestId. -/
def handle_send_message (data : JVal) : Except String (List Frame) :=
  let requestId := ((data.get "requestId").bind JVal.asStr).getD ""
  .ok [⟨"daemon:sendMessageResult", some requestId⟩]

/-- Frames actually emitted by a handler run: in each handler above the only
emit is the final statement, so a failing handler has emitted nothing. -/
def frames_of (r : Except String (List Frame)) : List Frame :=
  match r with
  | .ok fs => fs
  | .error _ => []

/-- run_once wraps a handler call: a handler error is logged and the
connected flag is left untouched (service.rs run_once). -/
def dispatch_request (connected : Bool) (r : Except String (List Frame)) :
    List Frame × Bool :=
  (frames_of r, connected)

/-- DaemonService::handle_start_watching: validate the session id, add it to
the watching set, build the transcript path and register it with the
watcher.  Returns the new (watching set, watcher map). -/
def handle_start_watching (fs : String → FileView) (watching : List String)
    (watcher : WatcherSessions) (home : String) (encodedDir : String → String)
    (data : JVal) : Except String (List String × WatcherSessions) := do
  let sessionId := ((data.get "sessionId").bind JVal.asStr).getD ""
  let projectPath := ((data.get "projectPath").bind JVal.asStr).getD ""
  let _ ← validate_path_component sessionId "session_id"
  let watching1 := if watching.contains sessionId then watching
    else watching ++ [sessionId]
  let path := home ++ "/.claude/projects/" ++ encodedDir projectPath
    ++ "/" ++ sessionId ++ ".jsonl"
  let watcher1 ← watch_session fs watcher sessionId path projectPath
  pure (watching1, watcher1)

/-! ## Approval registry (service.rs pending_approvals) -/

/-- service.rs ApprovalResult. -/
structure ApprovalResult where
  approved : Bool
  reason : Option String
deriving Repr, DecidableEq

/-- DaemonService::handle_approval_response over the set of pending request
ids: returns (new pending set, the result delivered to the waiter if one was
pending, frames emitted).  The pending map has unique keys, modelled as a
duplicate-free list of ids. -/
def handle_approval_response (pending : List String) (data : JVal) :
    List String × Option ApprovalResult × List Frame :=
  let requestId := ((data.get "requestId").bind JVal.asStr).getD ""
  let approved := ((data.get "approved").bind JVal.asBool).getD false
  let reason := (data.get "reason").bind JVal.asStr
  if pending.contains requestId then
    (pending.erase requestId, some ⟨approved, reason⟩, [])
  else
    (pending, none, [⟨"daemon:approvalExpired", some requestId⟩])

/-- How the oneshot await inside request_approval resolves: the server
replied (the response handler already removed and filled the slot), the
slot was dropped unfilled, or the caller-supplied timeout fired. -/
inductive AwaitOutcome where
  | replied (result : ApprovalResult)
  | channelClosed
  | timedOut

/-- DaemonService::request_approval: insert the slot keyed by
sessionId-toolUseId, emit the approvalRequest frame, then await.  On reply
the slot was already removed by handle_approval_response; on a closed
channel the slot is removed and the caller gets approved=false with
"Channel closed"; on timeout the slot is removed, an approvalTimeout frame
is emitted and the caller gets approved=false with "Request timeout".
Returns (pending set afterwards, caller result, frames emitted). -/
def request_approval (pending : List String) (sessionId toolUseId : String)
    (outcome : AwaitOutcome) : List String × ApprovalResult × List Frame :=
  let requestId := sessionId ++ "-" ++ toolUseId
  let pending1 := if pending.contains requestId then pending
    else pending ++ [requestId]
  let requestFrame : Frame := ⟨"daemon:approvalRequest", some requestId⟩
  match outcome with
  | .replied r => (pending1, r, [requestFrame])
  | .channelClosed =>
      (pending1.erase requestId, ⟨false, some "Channel closed"⟩, [requestFrame])
  | .timedOut =>
      (pending1.erase requestId, ⟨false, some "Request timeout"⟩,
        [requestFrame, ⟨"daemon:approvalTimeout", some requestId⟩])

/-! ## Socket client (socket-client/src/client.rs, error.rs) -/

/-- socket-client/src/error.rs SocketError. -/
inductive SocketErr where
  | connectionFailed (msg : String)
  | notConnected
  | emitFailed (msg : String)
  | ackTimeout
  | invalidUrl (msg : String)
  | serializationError (msg : String)
  | tlsError (msg : String)
  | ioError (msg : String)
  | registryError (msg : String)
deriving Repr, DecidableEq

/-- How the ack wait of emit_with_ack resolves: the ack callback ran with a
text payload, with a non-text payload, or the oneshot sender was dropped
without a send (the channel closed, or the library discarded the callback
after the ack deadline). -/
inductive AckOutcome where
  | textAck (values : List JVal)
  | binaryAck
  | noReply

/-- The default ack value used by emit_with_ack. -/
def defaultAck : JVal := JVal.obj [("success", JVal.bool true)]

/-- SocketClient::emit_with_ack: fail NotConnected without a client, fail
EmitFailed when the transport rejects the emit, otherwise return the first
value of a text ack payload, or the default value in every other case,
including when the channel closes without a reply. -/
def emit_with_ack (clientPresent : Bool) (emitAccepted : Bool)
    (emitErr : String) (outcome : AckOutcome) : Except SocketErr JVal :=
  if ¬ clientPresent then .error .notConnected
  else if ¬ emitAccepted then .error (.emitFailed emitErr)
  else
    match outcome with
    | .textAck values => .ok (values.headD defaultAck)
    | .binaryAck => .ok defaultAck
    | .noReply => .ok defaultAck

/-! ## Reconnection paths (service.rs run_once, client.rs reconnect) -/

/-- The externally visible steps of the two reconnection-related code paths. -/
inductive NetAction where
  | sleepBackoff
  | socketConnect
  | emitRegister
  | emitOnline
  | stopKeepalive
  | closeTransport
  | discoverServer
  | registerDaemonRedis
  | startKeepalive
deriving Repr, DecidableEq

/-- The disconnected branch of DaemonService::run_once: sleep ~5 s, call
SocketClient::connect on the current (unchanged) endpoint, and on success
emit daemon:register and daemon:etermOnline.  Returns the action trace and
the endpoint afterwards. -/
def run_once_disconnected (currentUrl : String) (connectOk : Bool) :
    List NetAction × String :=
  ([NetAction.sleepBackoff, NetAction.socketConnect] ++
    (if connectOk then [NetAction.emitRegister, NetAction.emitOnline] else []),
   currentUrl)

/-- SocketClient::reconnect: stop the keepalive heartbeat, close the current
transport, re-run discovery (replacing the endpoint when a server is found),
re-open the transport, re-register to the directory and restart the
heartbeat.  This function exists in the client but is never invoked by the
event loop. -/
def socket_client_reconnect (currentUrl : String) (discovered : Option String) :
    List NetAction × String :=
  ([NetAction.stopKeepalive, NetAction.closeTransport, NetAction.discoverServer,
    NetAction.socketConnect, NetAction.registerDaemonRedis,
    NetAction.startKeepalive],
   match discovered with
   | some addr => "https://" ++ addr
   | none => currentUrl)

/-! ## Service registry server ordering (socket-client/src/registry.rs) -/

/-- The host part of an address: address.split(':').next(), i.e. the
characters before the first colon. -/
def hostOf (address : String) : List Char :=
  address.toList.takeWhile (fun c => c ≠ ':')

/-- ServiceRegistry::get_priority: the host part before the first colon;
localhost and 127.0.0.1 rank 3, the private ranges 192.168.*, 10.*, 172.*
rank 2, anything else 1. -/
def get_priority (address : String) : Nat :=
  if hostOf address = "localhost".toList ∨ hostOf address = "127.0.0.1".toList
    then 3
  else if isInitialSeg "192.168.".toList (hostOf address)
      || isInitialSeg "10.".toList (hostOf address)
      || isInitialSeg "172.".toList (hostOf address) then 2
  else 1

/-- Stable insertion used to model Vec::sort_by with the descending-priority
comparator: an element moves past another only when its priority is strictly
smaller, so equal priorities keep their original order — the defining
property of Rust's stable sort_by. -/
def insertByPriority (x : String) : List String → List String
  | [] => [x]
  | y :: ys =>
      if get_priority x < get_priority y then y :: insertByPriority x ys
      else x :: y :: ys

/-- ServiceRegistry::sort_by_priority: stable sort by priority descending. -/
def sort_by_priority (addresses : List String) : List String :=
  addresses.foldr insertByPriority []

/-- ServiceRegistry::get_servers, applied to the addresses decoded from the
directory (the Redis scan is an external collaborator): sort by priority. -/
def get_servers (addresses : List String) : List String :=
  sort_by_priority addresses

/-! ## Writer-election adapter (daemon-logic/src/shared_db.rs) -/

/-- claude_session_db coordination Role, as used by the adapter. -/
inductive DbRole where
  | reader
  | writer
deriving Repr, DecidableEq

/-- Adapter state: current role, number of live heartbeat tasks and the
cooperative cancel flag. -/
structure AdapterState where
  role : DbRole
  hbCount : Nat
  cancel : Bool
deriving Repr, DecidableEq

/-- SharedDbAdapter::new: Role::Reader, no heartbeat task, cancel unset. -/
def initialAdapter : AdapterState := ⟨.reader, 0, false⟩

/-- SharedDbAdapter::stop_heartbeat: set the cancel flag and abort the task. -/
def stop_heartbeat (s : AdapterState) : AdapterState :=
  { s with cancel := true, hbCount := 0 }

/-- SharedDbAdapter::start_heartbeat: stop any existing heartbeat first,
reset the cancel flag, then spawn exactly one new task. -/
def start_heartbeat (s : AdapterState) : AdapterState :=
  let s1 := stop_heartbeat s
  { s1 with cancel := false, hbCount := s1.hbCount + 1 }

/-- SharedDbAdapter::register: reset the cancel flag, store the role the
store returned, and start the heartbeat iff it is Writer. -/
def registerAdapter (result : DbRole) (s : AdapterState) : AdapterState :=
  let s1 := { s with cancel := false, role := result }
  if result = .writer then start_heartbeat s1 else s1

/-- One iteration of the spawned heartbeat loop: nothing without a live
task; a cancelled task exits; a successful beat keeps going; a failed beat
demotes the role to Reader and exits the loop. -/
def heartbeat_tick (ok : Bool) (s : AdapterState) : AdapterState :=
  if s.hbCount = 0 then s
  else if s.cancel then { s with hbCount := s.hbCount - 1 }
  else if ok then s
  else { s with role := .reader, hbCount := s.hbCount - 1 }

/-- SharedDbAdapter::release: stop the heartbeat and return to Reader. -/
def releaseAdapter (s : AdapterState) : AdapterState :=
  { stop_heartbeat s with role := .reader }

/-- SharedDbAdapter::try_takeover: reset the cancel flag; on success become
Writer and restart the heartbeat. -/
def try_takeover (taken : Bool) (s : AdapterState) : AdapterState :=
  let s1 := { s with cancel := false }
  if taken then start_heartbeat { s1 with role := .writer } else s1

/-- The adapter operations, each carrying the outcome the SharedStore
collaborator produced. -/
inductive AdapterOp where
  | register (result : DbRole)
  | heartbeatTick (ok : Bool)
  | release
  | tryTakeover (taken : Bool)
deriving Repr, DecidableEq

/-- Transition function of the adapter. -/
def stepAdapter (s : AdapterState) : AdapterOp → AdapterState
  | .register r => registerAdapter r s
  | .heartbeatTick ok => heartbeat_tick ok s
  | .release => releaseAdapter s
  | .tryTakeover t => try_takeover t s

/-- States the adapter can reach from construction. -/
inductive ReachableAdapter : AdapterState → Prop where
  | init : ReachableAdapter initialAdapter
  | step (s : AdapterState) (op : AdapterOp) :
      ReachableAdapter s → ReachableAdapter (stepAdapter s op)

/-! ## Auxiliary definitions used by the theorems -/

/-- A parser that accepts nothing, for instantiating poll runs whose message
payloads are irrelevant. -/
def parseNone : List Nat → Option JVal := fun _ => none

/-- The upstream frames DaemonService::handle_watch_event emits for one
watch event (service.rs lines 406-454): newMessage, sessionListUpdate for a
created session, sessionDeleted, and nothing for an error. -/
def watchEventFrames : SessionWatchEvent → List Frame
  | .newMessage _ _ _ => [⟨"daemon:newMessage", none⟩]
  | .sessionCreated _ _ => [⟨"daemon:sessionListUpdate", none⟩]
  | .sessionDeleted _ _ => [⟨"daemon:sessionDeleted", none⟩]
  | .error _ _ => []

/-- Whether an emit_with_ack outcome is the AckTimeout error. -/
def isAckTimeoutErr : Except SocketErr JVal → Bool
  | .error .ackTimeout => true
  | _ => false

/-! ## Theorems -/

/-- C1: the claim states that after every poll the stored offset is at most
the file size and that a final line without a trailing newline is not
consumed.  The code adds content.len() + 1 for the final non-terminated
line as well: polling a watched file holding the two bytes of a JSON object
with no trailing newline stores offset 3, which exceeds the file size 2 and
lies past the start (0) of the non-terminated line — the spec itself flags
this slip in its design notes, so the code, not the claim, is wrong. -/
theorem read_offset_overshoots_file_size :
    (read_incremental_static parseNone [123, 125] 0).2 = 3 ∧
    ([123, 125] : List Nat).length = 2 ∧
    ((check_updates parseNone (fun _ => FileView.file [123, 125])
        [("s", ⟨"p", "proj", 0⟩)]).2.map (fun p => p.2.lastPosition)) = [3] := by
  exact ⟨rfl, rfl, rfl⟩

/-- C2 counterexample: a watched file shrunk from offset 5 to 1 byte keeps
the stored offset at 5 after a poll; the offset is not reset to the current
file size 1 as the claim states (the no-events half does hold). -/
theorem shrink_does_not_reset_offset :
    (check_updates parseNone (fun _ => FileView.file [97])
        [("s", ⟨"p", "proj", 5⟩)]).2 = [("s", ⟨"p", "proj", 5⟩)] ∧
    (check_updates parseNone (fun _ => FileView.file [97])
        [("s", ⟨"p", "proj", 5⟩)]).1.isEmpty = true ∧
    (((5 : Nat) == ([97] : List Nat).length)) = false := by
  exact ⟨rfl, rfl, rfl⟩

/-- Membership in the watched map survives an offset update of another key. -/
theorem mem_updatePosition_of_ne {m : WatcherSessions} {sid sid' : String}
    {st : SessionState} {pos : Nat} (h : (sid, st) ∈ m) (hne : sid ≠ sid') :
    (sid, st) ∈ updatePosition m sid' pos := by
  unfold updatePosition
  refine List.mem_map.mpr ⟨(sid, st), h, ?_⟩
  simp [hne]

/-- Fold invariant for check_updates over a session whose file shrank: its
entry stays untouched, it is never scheduled for deletion, and no event
names it. -/
theorem shrink_fold_invariant (parse : List Nat → Option JVal)
    (fs : String → FileView) (sid : String) (st : SessionState)
    (bytes : List Nat) (hfile : fs st.path = FileView.file bytes)
    (hshrink : bytes.length < st.lastPosition) :
    ∀ (snaps : List (String × SessionState))
      (acc : List SessionWatchEvent × WatcherSessions × List String),
      (∀ p ∈ snaps, p.1 = sid → p.2 = st) →
      (∀ e ∈ acc.1, e.sessionIdOf ≠ sid) →
      (sid, st) ∈ acc.2.1 → sid ∉ acc.2.2 →
      (∀ e ∈ (snaps.foldl (checkStep parse fs) acc).1, e.sessionIdOf ≠ sid) ∧
      (sid, st) ∈ (snaps.foldl (checkStep parse fs) acc).2.1 ∧
      sid ∉ (snaps.foldl (checkStep parse fs) acc).2.2 := by
  intro snaps
  induction snaps with
  | nil => intro acc _ h1 h2 h3; exact ⟨h1, h2, h3⟩
  | cons snap rest ih =>
      intro acc hkeys h1 h2 h3
      obtain ⟨sid', st'⟩ := snap
      obtain ⟨events, m, deleted⟩ := acc
      by_cases heq : sid' = sid
      · subst heq
        have hst : st' = st := hkeys (sid', st') (by simp) rfl
        subst hst
        have hread : read_incremental_static parse bytes st'.lastPosition
            = ([], st'.lastPosition) := by
          unfold read_incremental_static
          simp [Nat.le_of_lt hshrink]
        have hstep : checkStep parse fs (events, m, deleted) (sid', st')
            = (events, m, deleted) := by
          simp only [checkStep, hfile, hread]
          simp
        rw [List.foldl_cons, hstep]
        exact ih (events, m, deleted)
          (fun p hp h => hkeys p (List.mem_cons_of_mem _ hp) h) h1 h2 h3
      · rw [List.foldl_cons]
        rcases hview : fs st'.path with _ | bytes' | msg
        · -- file missing: a deleted event for sid' and sid' queued for removal
          refine ih _ (fun p hp h => hkeys p (List.mem_cons_of_mem _ hp) h)
            ?_ ?_ ?_ <;> simp only [checkStep, hview]
          · intro e he
            rcases List.mem_append.mp he with h | h
            · exact h1 e h
            · simp only [List.mem_singleton] at h
              subst h
              simpa [SessionWatchEvent.sessionIdOf] using heq
          · exact h2
          · intro hmem
            rcases List.mem_append.mp hmem with h | h
            · exact h3 h
            · simp only [List.mem_singleton] at h
              exact heq h.symm
        · -- file readable: possible newMessage events for sid' and an
          -- offset update keyed by sid'
          refine ih _ (fun p hp h => hkeys p (List.mem_cons_of_mem _ hp) h)
            ?_ ?_ ?_ <;> simp only [checkStep, hview]
          · intro e he
            rcases List.mem_append.mp he with h | h
            · exact h1 e h
            · rcases List.mem_map.mp h with ⟨msg, _, hmsg⟩
              subst hmsg
              simpa [SessionWatchEvent.sessionIdOf] using heq
          · by_cases hpos : st'.lastPosition <
                (read_incremental_static parse bytes' st'.lastPosition).2
            · simpa [hpos] using
                mem_updatePosition_of_ne h2 (fun h => heq h.symm)
            · simpa [hpos] using h2
          · exact h3
        · -- open failed: an error event for sid'
          refine ih _ (fun p hp h => hkeys p (List.mem_cons_of_mem _ hp) h)
            ?_ ?_ ?_ <;> simp only [checkStep, hview]
          · intro e he
            rcases List.mem_append.mp he with h | h
            · exact h1 e h
            · simp only [List.mem_singleton] at h
              subst h
              simpa [SessionWatchEvent.sessionIdOf] using heq
          · exact h2
          · exact h3

/-- C2 (amended): for every watched session whose file has shrunk
(current size strictly below the stored offset), a poll emits no event for
that session and leaves its entry — in particular its offset — unchanged;
the offset is not reset to the current file size. -/
theorem shrunk_file_poll_keeps_offset (parse : List Nat → Option JVal)
    (fs : String → FileView) (sessions : WatcherSessions)
    (sid : String) (st : SessionState) (bytes : List Nat)
    (hmem : (sid, st) ∈ sessions)
    (hkey : ∀ p ∈ sessions, p.1 = sid → p.2 = st)
    (hfile : fs st.path = FileView.file bytes)
    (hshrink : bytes.length < st.lastPosition) :
    (∀ e ∈ (check_updates parse fs sessions).1, e.sessionIdOf ≠ sid) ∧
    (sid, st) ∈ (check_updates parse fs sessions).2 := by
  have h := shrink_fold_invariant parse fs sid st bytes hfile hshrink sessions
    ([], sessions, []) hkey (by simp) hmem (by simp)
  refine ⟨h.1, ?_⟩
  unfold check_updates
  refine List.mem_filter.mpr ⟨h.2.1, ?_⟩
  simpa using h.2.2

/-- C2 witness: a session at offset 5 over a one-byte file is untouched by
the poll. -/
theorem shrunk_file_poll_keeps_offset_witness :
    ("s", (⟨"p", "proj", 5⟩ : SessionState)) ∈
      (check_updates parseNone (fun _ => FileView.file [97])
        [("s", ⟨"p", "proj", 5⟩)]).2 := by
  exact (shrunk_file_poll_keeps_offset parseNone (fun _ => FileView.file [97])
    [("s", ⟨"p", "proj", 5⟩)] "s" ⟨"p", "proj", 5⟩ [97] (by simp)
    (by intro p hp h; simpa using congrArg Prod.snd (List.mem_singleton.mp hp))
    rfl (by norm_num)).2

/-- Fold invariant: check_updates never appends a SessionCreated event. -/
theorem no_created_fold_invariant (parse : List Nat → Option JVal)
    (fs : String → FileView) :
    ∀ (snaps : List (String × SessionState))
      (acc : List SessionWatchEvent × WatcherSessions × List String),
      (∀ e ∈ acc.1, e.isCreated = false) →
      ∀ e ∈ (snaps.foldl (checkStep parse fs) acc).1, e.isCreated = false := by
  intro snaps
  induction snaps with
  | nil => intro acc h; exact h
  | cons snap rest ih =>
      intro acc h
      obtain ⟨sid, st⟩ := snap
      obtain ⟨events, m, deleted⟩ := acc
      rw [List.foldl_cons]
      rcases hview : fs st.path with _ | bytes | msg <;>
        refine ih _ ?_ <;> simp only [checkStep, hview] <;> intro e he
      · rcases List.mem_append.mp he with hl | hl
        · exact h e hl
        · simp only [List.mem_singleton] at hl
          subst hl; rfl
      · rcases List.mem_append.mp he with hl | hl
        · exact h e hl
        · rcases List.mem_map.mp hl with ⟨msg, _, hmsg⟩
          subst hmsg; rfl
      · rcases List.mem_append.mp he with hl | hl
        · exact h e hl
        · simp only [List.mem_singleton] at hl
          subst hl; rfl

/-- C10: a single check_updates call can only return NewMessage,
SessionDeleted and Error events — never SessionCreated — so the
orchestrator's translation of a created event into a sessionListUpdate
frame is unreachable from polling. -/
theorem poll_never_emits_created (parse : List Nat → Option JVal)
    (fs : String → FileView) (sessions : WatcherSessions) :
    (∀ e ∈ (check_updates parse fs sessions).1, e.isCreated = false) ∧
    (∀ e ∈ (check_updates parse fs sessions).1,
      "daemon:sessionListUpdate" ∉ (watchEventFrames e).map Frame.event) := by
  have hbase : ∀ e ∈ (check_updates parse fs sessions).1, e.isCreated = false := by
    intro e he
    exact no_created_fold_invariant parse fs sessions ([], sessions, [])
      (by simp) e he
  refine ⟨hbase, fun e he => ?_⟩
  have hc := hbase e he
  cases e with
  | newMessage sid pp msg => simp [watchEventFrames]
  | sessionCreated sid pp => simp [SessionWatchEvent.isCreated] at hc
  | sessionDeleted sid pp => simp [watchEventFrames]
  | error sid msg => simp [watchEventFrames]

/-- C10 witness: the deleted-session event produced by polling a vanished
file is not a created event. -/
theorem poll_never_emits_created_witness :
    (SessionWatchEvent.sessionDeleted "s" "proj").isCreated = false := by
  apply (poll_never_emits_created parseNone (fun _ => FileView.missing)
    [("s", ⟨"p", "proj", 0⟩)]).1
  have h : (check_updates parseNone (fun _ => FileView.missing)
      [("s", ⟨"p", "proj", 0⟩)]).1
      = [SessionWatchEvent.sessionDeleted "s" "proj"] := rfl
  rw [h]
  exact List.mem_singleton.mpr rfl

/-- C3 counterexample: the action trace of run_once's disconnected branch
(on a successful connect) is not the backoff followed by the
SocketClient::reconnect procedure and the re-registration emits, because
run_once calls plain connect() and never reconnect(). -/
theorem run_once_trace_is_not_reconnect_trace :
    ((run_once_disconnected "https://localhost:10005" true).1 ==
      NetAction.sleepBackoff ::
        ((socket_client_reconnect "https://localhost:10005" none).1 ++
          [NetAction.emitRegister, NetAction.emitOnline])) = false := by
  decide

/-- C3 (amended): when the event loop observes the socket disconnected it
sleeps ~5 s, re-opens the transport to the current, unchanged endpoint via
connect(), and on success re-emits daemon:register and daemon:etermOnline;
it performs no heartbeat stop/restart, no directory re-discovery and no
directory re-registration — SocketClient::reconnect, which would do those,
is never invoked on this path. -/
theorem run_once_reconnect_path_shape (url : String) (ok : Bool) :
    run_once_disconnected url ok =
      ([NetAction.sleepBackoff, NetAction.socketConnect] ++
        (if ok then [NetAction.emitRegister, NetAction.emitOnline] else []),
       url) ∧
    (run_once_disconnected url ok).1.contains NetAction.discoverServer = false ∧
    (run_once_disconnected url ok).1.contains NetAction.stopKeepalive = false ∧
    (run_once_disconnected url ok).1.contains NetAction.startKeepalive = false ∧
    (run_once_disconnected url ok).1.contains NetAction.registerDaemonRedis
      = false := by
  cases ok <;> exact ⟨rfl, rfl, rfl, rfl, rfl⟩

/-- C6 counterexample: when the ack wait ends without a reply — the oneshot
sender was dropped, which is what happens when the ack deadline passes —
emit_with_ack returns the default success value rather than failing with
AckTimeout.  No path of emit_with_ack builds the AckTimeout error. -/
theorem ack_deadline_returns_default_not_error :
    emit_with_ack true true "e" AckOutcome.noReply = Except.ok defaultAck ∧
    isAckTimeoutErr (emit_with_ack true true "e" AckOutcome.noReply) = false := by
  exact ⟨rfl, rfl⟩

/-- C6 (amended): emit_with_ack registers a one-shot reply slot and returns
the first value of the ack payload; if the channel closes without a reply —
including when the ack deadline is exceeded and the library drops the
callback — it returns the default success value; it never produces the
AckTimeout error (its only failures are NotConnected and EmitFailed). -/
theorem emit_with_ack_behavior (emitErr : String) (values : List JVal) :
    emit_with_ack true true emitErr (AckOutcome.textAck values) =
      Except.ok (values.headD defaultAck) ∧
    emit_with_ack true true emitErr AckOutcome.noReply = Except.ok defaultAck ∧
    emit_with_ack true true emitErr AckOutcome.binaryAck = Except.ok defaultAck ∧
    (∀ cp ea o, isAckTimeoutErr (emit_with_ack cp ea emitErr o) = false) ∧
    (∀ o, emit_with_ack false true emitErr o = Except.error SocketErr.notConnected) ∧
    (∀ o, emit_with_ack true false emitErr o =
      Except.error (SocketErr.emitFailed emitErr)) := by
  refine ⟨rfl, rfl, rfl, ?_, fun o => rfl, fun o => rfl⟩
  intro cp ea o
  cases cp <;> cases ea <;> cases o <;> rfl

/-- C9: in the writer-election adapter, a failed heartbeat (with the single
live task and no pending cancel) demotes the role to Reader and ends the
heartbeat loop; the role can only become Writer through register or
try_takeover; and every reachable state has at most one live heartbeat
task, because starting a heartbeat first stops any existing one. -/
theorem adapter_writer_election_invariants :
    (∀ s : AdapterState, s.hbCount = 1 → s.cancel = false →
      stepAdapter s (.heartbeatTick false) =
        { s with role := .reader, hbCount := 0 }) ∧
    (∀ (s : AdapterState) (op : AdapterOp), s.role ≠ .writer →
      (stepAdapter s op).role = .writer →
      op = .register .writer ∨ op = .tryTakeover true) ∧
    (∀ s : AdapterState, ReachableAdapter s → s.hbCount ≤ 1) := by
  refine ⟨?_, ?_, ?_⟩
  · intro s h1 h2
    simp [stepAdapter, heartbeat_tick, h1, h2]
  · intro s op hne hw
    cases op with
    | register r =>
        cases r with
        | reader =>
            exfalso
            simp [stepAdapter, registerAdapter, start_heartbeat,
              stop_heartbeat] at hw
        | writer => exact Or.inl rfl
    | heartbeatTick ok =>
        exfalso
        cases ok <;>
          (unfold stepAdapter heartbeat_tick at hw;
           split_ifs at hw <;> simp_all)
    | release =>
        exfalso
        simp [stepAdapter, releaseAdapter, stop_heartbeat] at hw
    | tryTakeover t =>
        cases t with
        | false =>
            exfalso
            simp [stepAdapter, try_takeover] at hw
            exact hne hw
        | true => exact Or.inr rfl
  · intro s h
    induction h with
    | init => exact Nat.zero_le 1
    | step s op _ ih =>
        cases op with
        | register r =>
            cases r with
            | reader => simpa [stepAdapter, registerAdapter] using ih
            | writer =>
                simp [stepAdapter, registerAdapter, start_heartbeat,
                  stop_heartbeat]
        | heartbeatTick ok =>
            cases ok <;>
              (unfold stepAdapter heartbeat_tick;
               split_ifs <;> simp_all)
        | release => simp [stepAdapter, releaseAdapter, stop_heartbeat]
        | tryTakeover t =>
            cases t with
            | false => simpa [stepAdapter, try_takeover] using ih
            | true =>
                simp [stepAdapter, try_takeover, start_heartbeat,
                  stop_heartbeat]

/-- C9 witness: a failed heartbeat of a writer with one live task demotes it
to Reader with no live tasks; registering as writer from the initial state
is one of the permitted ways to become Writer; and the initial state has at
most one heartbeat task. -/
theorem adapter_writer_election_invariants_witness :
    stepAdapter ⟨.writer, 1, false⟩ (.heartbeatTick false) =
      (⟨.reader, 0, false⟩ : AdapterState) ∧
    (AdapterOp.register DbRole.writer = .register .writer ∨
      AdapterOp.register DbRole.writer = .tryTakeover true) ∧
    initialAdapter.hbCount ≤ 1 := by
  obtain ⟨h1, h2, h3⟩ := adapter_writer_election_invariants
  exact ⟨h1 ⟨.writer, 1, false⟩ rfl rfl,
    h2 initialAdapter (.register .writer) (by decide) (by decide),
    h3 initialAdapter ReachableAdapter.init⟩

/-- C5: approval bookkeeping.  On timeout the slot is removed and one
approvalTimeout frame is emitted; an incoming approvalResponse with a
pending slot removes it and fulfils the waiter with the carried approved
and reason values; an approvalResponse without a pending slot emits one
approvalExpired frame and changes nothing; a slot dropped before being
filled yields approved=false with reason "Channel closed". -/
theorem approval_registry_behavior
    (pending : List String) (data : JVal) (sessionId toolUseId rid : String)
    (hrid : (data.get "requestId").bind JVal.asStr = some rid) :
    ((sessionId ++ "-" ++ toolUseId) ∉ pending →
      request_approval pending sessionId toolUseId .timedOut =
        (pending, ⟨false, some "Request timeout"⟩,
          [⟨"daemon:approvalRequest", some (sessionId ++ "-" ++ toolUseId)⟩,
           ⟨"daemon:approvalTimeout", some (sessionId ++ "-" ++ toolUseId)⟩])) ∧
    ((sessionId ++ "-" ++ toolUseId) ∉ pending →
      request_approval pending sessionId toolUseId .channelClosed =
        (pending, ⟨false, some "Channel closed"⟩,
          [⟨"daemon:approvalRequest", some (sessionId ++ "-" ++ toolUseId)⟩])) ∧
    (rid ∈ pending →
      handle_approval_response pending data =
        (pending.erase rid,
         some ⟨((data.get "approved").bind JVal.asBool).getD false,
               (data.get "reason").bind JVal.asStr⟩, [])) ∧
    (pending.Nodup → rid ∉ pending.erase rid) ∧
    (rid ∉ pending →
      handle_approval_response pending data =
        (pending, none, [⟨"daemon:approvalExpired", some rid⟩])) := by
  have hgetd : ((data.get "requestId").bind JVal.asStr).getD "" = rid := by
    rw [hrid]; rfl
  refine ⟨?_, ?_, ?_, ?_, ?_⟩
  · intro h
    simp [request_approval, h, List.erase_append_right _ h]
  · intro h
    simp [request_approval, h, List.erase_append_right _ h]
  · intro h
    simp [handle_approval_response, hgetd, h]
  · intro h
    exact h.not_mem_erase
  · intro h
    simp [handle_approval_response, hgetd, h]

/-- C5 witness: a reply for the pending id s-u1 removes the single slot and
fulfils the waiter with approved=true; a timeout over an empty map yields
the timeout result and the approvalTimeout frame. -/
theorem approval_registry_behavior_witness :
    handle_approval_response ["s-u1"]
        (JVal.obj [("requestId", JVal.str "s-u1"), ("approved", JVal.bool true)]) =
      ([], some ⟨true, none⟩, []) ∧
    request_approval [] "s" "u1" .timedOut =
      ([], ⟨false, some "Request timeout"⟩,
        [⟨"daemon:approvalRequest", some "s-u1"⟩,
         ⟨"daemon:approvalTimeout", some "s-u1"⟩]) := by
  constructor
  · exact (approval_registry_behavior ["s-u1"]
      (JVal.obj [("requestId", JVal.str "s-u1"), ("approved", JVal.bool true)])
      "s" "u1" "s-u1" rfl).2.2.1 (by simp)
  · exact (approval_registry_behavior []
      (JVal.obj [("requestId", JVal.str "s-u1"), ("approved", JVal.bool true)])
      "s" "u1" "s-u1" rfl).1 (by simp)

/-- C4 counterexample: a requestSessionMessages payload whose sessionId is
".." carries requestId r1, fails validation before the emit, and so no
frame carrying r1 is emitted — not exactly one as the claim states. -/
theorem invalid_session_id_emits_no_response :
    handle_request_session_messages (Except.ok ⟨[], 0, false⟩)
        (JVal.obj [("sessionId", JVal.str ".."), ("projectPath", JVal.str "/u/a"),
          ("requestId", JVal.str "r1")]) =
      Except.error "Invalid session_id: contains forbidden characters" ∧
    ((frames_of (handle_request_session_messages (Except.ok ⟨[], 0, false⟩)
        (JVal.obj [("sessionId", JVal.str ".."), ("projectPath", JVal.str "/u/a"),
          ("requestId", JVal.str "r1")]))).countP
      (fun f => f.requestId == some "r1") == 1) = false := by
  exact ⟨rfl, rfl⟩

/-- Unfolded shape of handle_request_session_messages. -/
theorem handle_rsm_eq (rr : Except String ReadRawResult) (data : JVal) :
    handle_request_session_messages rr data =
      (validate_path_component (((data.get "sessionId").bind JVal.asStr).getD "")
          "session_id").bind (fun _ =>
        rr.bind (fun _ =>
          Except.ok [⟨"daemon:sessionMessages", extractRequestId data⟩])) := rfl

/-- C4 (amended): every delegated-write request (createSession,
checkLoading, sendMessage) gets exactly one (failure-shaped) response frame
echoing its requestId R; each read request (requestProjectData,
requestSessionMetadata, requestSessionMessages) gets exactly one response
frame echoing R when its handler succeeds; a handler that fails — e.g. on
path validation or a transcript read error — returns the error and emits no
frame at all for that request. -/
theorem request_response_discipline (data : JVal) (R : String)
    (hR : (data.get "requestId").bind JVal.asStr = some R) :
    (frames_of (handle_create_session data)).countP
        (fun f => f.requestId == some R) = 1 ∧
    (frames_of (handle_check_loading data)).countP
        (fun f => f.requestId == some R) = 1 ∧
    (frames_of (handle_send_message data)).countP
        (fun f => f.requestId == some R) = 1 ∧
    (∀ lp fs, handle_request_project_data lp data = .ok fs →
      fs.countP (fun f => f.requestId == some R) = 1) ∧
    (∀ ls fs, handle_request_session_metadata ls data = .ok fs →
      fs.countP (fun f => f.requestId == some R) = 1) ∧
    (∀ rr fs, handle_request_session_messages rr data = .ok fs →
      fs.countP (fun f => f.requestId == some R) = 1) ∧
    (∀ rr e, handle_request_session_messages rr data = .error e →
      frames_of (handle_request_session_messages rr data) = []) := by
  have hgetd : ((data.get "requestId").bind JVal.asStr).getD "" = R := by
    rw [hR]; rfl
  have hex : extractRequestId data = some R := hR
  refine ⟨?_, ?_, ?_, ?_, ?_, ?_, ?_⟩
  · simp [handle_create_session, frames_of, hgetd, List.countP_cons]
  · simp [handle_check_loading, frames_of, hgetd, List.countP_cons]
  · simp [handle_send_message, frames_of, hgetd, List.countP_cons]
  · intro lp fs h
    cases lp with
    | error e => simp [handle_request_project_data, Except.bind] at h
    | ok v =>
        have h' : Except.ok (ε := String)
            [(⟨"daemon:projectData", extractRequestId data⟩ : Frame)] =
            .ok fs := h
        simp only [Except.ok.injEq] at h'
        subst h'
        simp [hex, List.countP_cons]
  · intro ls fs h
    cases ls with
    | error e => simp [handle_request_session_metadata, Except.bind] at h
    | ok v =>
        have h' : Except.ok (ε := String)
            [(⟨"daemon:sessionMetadata", extractRequestId data⟩ : Frame)] =
            .ok fs := h
        simp only [Except.ok.injEq] at h'
        subst h'
        simp [hex, List.countP_cons]
  · intro rr fs h
    rw [handle_rsm_eq] at h
    cases hv : validate_path_component
        (((data.get "sessionId").bind JVal.asStr).getD "") "session_id" with
    | error e => rw [hv] at h; simp [Except.bind] at h
    | ok u =>
        rw [hv] at h
        cases rr with
        | error e => simp [Except.bind] at h
        | ok v =>
            simp only [Except.bind, Except.ok.injEq] at h
            subst h
            simp [hex, List.countP_cons]
  · intro rr e h
    rw [h]
    rfl

/-- C4 witness: with requestId r1 the delegated createSession reply carries
exactly one frame echoing r1, and a successful requestSessionMessages run
for a valid session id emits exactly one sessionMessages frame echoing
r1. -/
theorem request_response_discipline_witness :
    (frames_of (handle_create_session
        (JVal.obj [("requestId", JVal.str "r1"), ("sessionId", JVal.str "abc"),
          ("projectPath", JVal.str "/u/a")]))).countP
      (fun f => f.requestId == some "r1") = 1 ∧
    ([(⟨"daemon:sessionMessages", some "r1"⟩ : Frame)]).countP
      (fun f => f.requestId == some "r1") = 1 := by
  have h := request_response_discipline
    (JVal.obj [("requestId", JVal.str "r1"), ("sessionId", JVal.str "abc"),
      ("projectPath", JVal.str "/u/a")]) "r1" rfl
  exact ⟨h.1, h.2.2.2.2.2.1 (.ok ⟨[], 0, false⟩)
    [⟨"daemon:sessionMessages", some "r1"⟩] (by rfl)⟩

/-- The priority of an address is 3, 2 or 1. -/
theorem get_priority_cases (a : String) :
    get_priority a = 3 ∨ get_priority a = 2 ∨ get_priority a = 1 := by
  unfold get_priority
  split_ifs <;> simp

/-- Every priority is at most 3. -/
theorem get_priority_le_three (a : String) : get_priority a ≤ 3 := by
  rcases get_priority_cases a with h | h | h <;> omega

/-- Inserting before a block whose members do not outrank x puts x first. -/
theorem insertByPriority_all_le (x : String) (l : List String)
    (h : ∀ y ∈ l, get_priority y ≤ get_priority x) :
    insertByPriority x l = x :: l := by
  cases l with
  | nil => rfl
  | cons y ys =>
      have hy := h y (by simp)
      simp [insertByPriority, Nat.not_lt.mpr hy]

/-- Inserting past a block whose members all outrank x leaves the block. -/
theorem insertByPriority_skip (x : String) :
    ∀ (l rest : List String), (∀ y ∈ l, get_priority x < get_priority y) →
      insertByPriority x (l ++ rest) = l ++ insertByPriority x rest := by
  intro l
  induction l with
  | nil => intro rest _; rfl
  | cons y ys ih =>
      intro rest h
      have hy := h y (by simp)
      simp [insertByPriority, hy, ih rest (fun z hz => h z (by simp [hz]))]

/-- C7: get_servers orders the discovered addresses by priority descending
— hosts localhost/127.0.0.1 first (priority 3), then the private ranges
192.168.*, 10.*, 172.* (priority 2), then everything else (priority 1) —
and the sort is stable: the result is exactly the priority-3 addresses in
listing order, then the priority-2 ones, then the priority-1 ones. -/
theorem get_servers_priority_order (l : List String) :
    get_servers l =
      l.filter (fun a => get_priority a == 3) ++
        l.filter (fun a => get_priority a == 2) ++
        l.filter (fun a => get_priority a == 1) := by
  unfold get_servers sort_by_priority
  induction l with
  | nil => rfl
  | cons a l ih =>
      rw [List.foldr_cons, ih]
      rcases get_priority_cases a with hp | hp | hp
      · rw [insertByPriority_all_le]
        · simp [List.filter_cons, hp]
        · intro y _
          rw [hp]
          exact get_priority_le_three y
      · rw [List.append_assoc, insertByPriority_skip, insertByPriority_all_le]
        · simp [List.filter_cons, hp]
        · intro y hy
          rw [hp]
          rcases List.mem_append.mp hy with hm | hm <;>
            have := List.of_mem_filter hm <;> simp_all
        · intro y hy
          have := List.of_mem_filter hy
          have h3 : get_priority y = 3 := by simpa using this
          omega
      · rw [insertByPriority_skip, insertByPriority_all_le]
        · simp [List.filter_cons, hp]
        · intro y hy
          rw [hp]
          have h1 : get_priority y = 1 := by
            simpa using List.of_mem_filter hy
          omega
        · intro y hy
          rw [hp]
          rcases List.mem_append.mp hy with hm | hm
          · have h3 : get_priority y = 3 := by
              simpa using List.of_mem_filter hm
            omega
          · have h2 : get_priority y = 2 := by
              simpa using List.of_mem_filter hm
            omega

/-- Unfolded shape of handle_start_watching. -/
theorem handle_sw_eq (fs : String → FileView) (watching : List String)
    (watcher : WatcherSessions) (home : String) (enc : String → String)
    (data : JVal) :
    handle_start_watching fs watching watcher home enc data =
      (validate_path_component (((data.get "sessionId").bind JVal.asStr).getD "")
          "session_id").bind (fun _ =>
        (watch_session fs watcher
            (((data.get "sessionId").bind JVal.asStr).getD "")
            (home ++ "/.claude/projects/"
              ++ enc (((data.get "projectPath").bind JVal.asStr).getD "")
              ++ "/" ++ (((data.get "sessionId").bind JVal.asStr).getD "")
              ++ ".jsonl")
            (((data.get "projectPath").bind JVal.asStr).getD "")).bind
          (fun w1 => Except.ok
            (if watching.contains (((data.get "sessionId").bind JVal.asStr).getD "")
              then watching
              else watching ++ [((data.get "sessionId").bind JVal.asStr).getD ""],
             w1))) := rfl

/-- C8: a sessionId used as a path segment is accepted by the validator iff
it is non-empty, contains no "..", does not start with a slash and contains
no NUL character; a rejected identifier makes requestSessionMessages and
startWatching fail with an error before reaching any emit or state change,
so no frame is sent for that request, and the dispatcher leaves the
connection untouched — handler errors are only logged. -/
theorem path_validation_guard
    (data : JVal) (rr : Except String ReadRawResult) (fs : String → FileView)
    (watching : List String) (watcher : WatcherSessions)
    (home : String) (enc : String → String) (connected : Bool) (e : String)
    (hval : validate_path_component
        (((data.get "sessionId").bind JVal.asStr).getD "") "session_id"
      = .error e) :
    (∀ s name, validate_path_component s name = .ok () ↔
      (s.isEmpty = false ∧ hasSubstr s.toList ['.', '.'] = false ∧
        isInitialSeg ['/'] s.toList = false ∧
        s.toList.contains (Char.ofNat 0) = false)) ∧
    handle_request_session_messages rr data = .error e ∧
    handle_start_watching fs watching watcher home enc data = .error e ∧
    dispatch_request connected (handle_request_session_messages rr data)
      = ([], connected) := by
  have hmsg : handle_request_session_messages rr data = .error e := by
    rw [handle_rsm_eq, hval]
    rfl
  refine ⟨?_, hmsg, ?_, ?_⟩
  · intro s name
    constructor
    · intro h
      unfold validate_path_component at h
      split_ifs at h with h1 h2
      simp only [Bool.or_eq_true, not_or, Bool.not_eq_true] at h2
      exact ⟨by simpa using h1, h2.1.1, h2.1.2, h2.2⟩
    · rintro ⟨hne, hsub, hstart, hnul⟩
      have hall : (hasSubstr s.toList ['.', '.'] || isInitialSeg ['/'] s.toList
          || s.toList.contains (Char.ofNat 0)) = false := by
        rw [hsub, hstart, hnul]
        rfl
      unfold validate_path_component
      rw [if_neg (by rw [hne]; simp), if_neg (by rw [hall]; simp)]
  · rw [handle_sw_eq, hval]
    rfl
  · show (frames_of (handle_request_session_messages rr data), connected)
      = ([], connected)
    rw [hmsg]
    rfl

/-- C8 witness: the traversal identifier ../etc/passwd is rejected, the
startWatching handler fails with the validation error and the dispatcher
emits nothing while leaving the connection up; the plain identifier abc is
accepted. -/
theorem path_validation_guard_witness :
    handle_start_watching (fun _ => FileView.missing) [] [] "/home/u"
        (fun p => p) (JVal.obj [("sessionId", JVal.str "../etc/passwd")]) =
      Except.error "Invalid session_id: contains forbidden characters" ∧
    validate_path_component "abc" "session_id" = .ok () := by
  have h := path_validation_guard
    (JVal.obj [("sessionId", JVal.str "../etc/passwd")])
    (.ok ⟨[], 0, false⟩) (fun _ => FileView.missing) [] [] "/home/u"
    (fun p => p) true "Invalid session_id: contains forbidden characters" rfl
  exact ⟨h.2.2.1, (h.1 "abc" "session_id").mpr ⟨rfl, rfl, rfl, rfl⟩⟩

end Vlaude
